import Mathlib

/-
Verification development for the AR-backend repository (src/main.py and
src/utils/tripo_sdk_client.py).

The two Python modules are shallowly embedded as pure Lean functions.
External collaborators (the Tripo client, the filesystem, the Supabase
uploader, the concurrently mutated registries) are modelled as explicit
environment parameters, and every awaited external call is recorded in an
event trace.  An asyncio.CancelledError delivered at a suspension point is
modelled by an `interruptAt` index into that trace: the n-th awaited call
raises when the trace already holds n events.
-/

set_option maxHeartbeats 1000000

namespace ARBackend

/-- Remote status enum of the external job service (tripo3d `TaskStatus`). -/
inductive TaskStatus
  | queued
  | running
  | success
  | failed
  | cancelled
  deriving DecidableEq, Repr

/-- One awaited call on an external collaborator, as recorded in the trace. -/
inductive Event
  | clientInit
  | submitSingle (image : String)
  | submitMulti (images : List String)
  | getTask (jobId : String)
  | downloadModels (jobId : String) (dir : String)
  | convertModel (jobId : String) (fmt : String)
  | sleepPoll
  deriving DecidableEq, Repr

/-- Environment of `generate_3d_from_images`: responses of the external job
service, plus the suspension point (event-trace index) at which an
asyncio.CancelledError is delivered, if any. -/
structure TripoEnv where
  interruptAt : Option Nat := none
  singleJobId : String := "tripo-job"
  multiJobId : String := "tripo-job"
  status : Nat → TaskStatus := fun _ => TaskStatus.queued
  failedDetails : String := ""
  downloadMap : List (String × String) := []
  convJobId : String → String := fun f => f
  convStatus : String → Nat → TaskStatus := fun _ _ => TaskStatus.queued
  convDownload : String → List String := fun _ => []

/-- The module-level `active_tasks` dictionary defined in tripo_sdk_client.py
(line 12).  No statement in either module ever inserts a key into this
dictionary (main.py has its own, separate, `active_tasks` object), so its key
set is empty for the whole life of the process. -/
def tripoActiveTasks : List String := []

/-- The guard `if task_id and task_id not in active_tasks` used at every
cancellation checkpoint of tripo_sdk_client.py: Python truthiness means a
`None` or empty-string task id disables the check entirely. -/
def cancelCheck (active : List String) : Option String → Bool
  | none => false
  | some s => if s = "" then false else if s ∈ active then false else true

/-- The event trace accumulated before an asyncio.CancelledError was raised. -/
abbrev Raised := List Event

/-- One awaited external call: if the environment delivers a CancelledError at
this suspension point (indexed by the number of events so far) the await
raises, otherwise the call's event is appended to the trace. -/
def awaitPt (env : TripoEnv) (evs : List Event) (e : Event) :
    Except Raised (List Event) :=
  if env.interruptAt = some evs.length then Except.error evs
  else Except.ok (evs ++ [e])

/-- The dictionary returned by `generate_3d_from_images` (status plus the
optional payload fields the function puts in it). -/
structure GenResult where
  status : String
  message : String := ""
  details : String := ""
  task_id : Option String := none
  pbr_model : Option String := none
  files : List (String × List String) := []
  deriving DecidableEq, Repr

def cancelledResult (msg : String) : GenResult :=
  { status := "cancelled", message := msg }

/-- Outcome of the main polling loop of tripo_sdk_client.py (lines 54-77). -/
inductive PollRes
  | cancelledLoop
  | cancelledServer
  | failedRemote
  | succeeded
  | timeout
  deriving DecidableEq, Repr

/-- The custom polling loop: `while elapsed_time < max_wait_time` with
`poll_interval = 3` and `max_wait_time = 300`, i.e. at most 100 iterations;
`fuel` is the number of remaining iterations.  Each iteration checks the
cancellation guard, awaits `client.get_task`, branches on the remote status
and otherwise awaits `asyncio.sleep`. -/
def pollLoop (env : TripoEnv) (active : List String) (tid : Option String)
    (jobId : String) : Nat → Nat → List Event → Except Raised (PollRes × List Event)
  | _, 0, evs => Except.ok (.timeout, evs)
  | n, fuel+1, evs =>
    if cancelCheck active tid then Except.ok (.cancelledLoop, evs)
    else
      match awaitPt env evs (.getTask jobId) with
      | .error r => .error r
      | .ok evs1 =>
        match env.status n with
        | .success => Except.ok (.succeeded, evs1)
        | .failed => Except.ok (.failedRemote, evs1)
        | .cancelled => Except.ok (.cancelledServer, evs1)
        | _ =>
          match awaitPt env evs1 .sleepPoll with
          | .error r => .error r
          | .ok evs2 => pollLoop env active tid jobId (n+1) fuel evs2

/-- Outcome of one format's conversion polling loop (lines 131-150). -/
inductive ConvRes
  | succeeded (paths : List String)
  | failedRemote
  | timeout
  | cancelledLoop
  deriving DecidableEq, Repr

/-- The conversion polling loop: `while convert_elapsed < convert_max_wait`
with the same 3-second interval and a 120-second budget, i.e. at most 40
iterations.  On remote success it awaits the download and keeps the non-empty
paths (`[p for p in converted.values() if p]`); on remote failure it breaks
with the format omitted; only SUCCESS and FAILED are inspected. -/
def convPollLoop (env : TripoEnv) (active : List String) (tid : Option String)
    (fmt cid formatDir : String) :
    Nat → Nat → List Event → Except Raised (ConvRes × List Event)
  | _, 0, evs => Except.ok (.timeout, evs)
  | m, fuel+1, evs =>
    if cancelCheck active tid then Except.ok (.cancelledLoop, evs)
    else
      match awaitPt env evs (.getTask cid) with
      | .error r => .error r
      | .ok evs1 =>
        match env.convStatus fmt m with
        | .success =>
          match awaitPt env evs1 (.downloadModels cid formatDir) with
          | .error r => .error r
          | .ok evs2 =>
            Except.ok (.succeeded ((env.convDownload fmt).filter (fun p => p != "")), evs2)
        | .failed => Except.ok (.failedRemote, evs1)
        | _ =>
          match awaitPt env evs1 .sleepPoll with
          | .error r => .error r
          | .ok evs2 => convPollLoop env active tid fmt cid formatDir (m+1) fuel evs2

/-- Python truthiness of an optional string (`if pbr_model:`). -/
def optTruthy : Option String → Bool
  | none => false
  | some s => s != ""

/-- `output_files.setdefault(key, []).append(v)`: dict update on an
association list (unique keys), appending to the existing entry if present. -/
def setdefaultAppend : List (String × List String) → String → String →
    List (String × List String)
  | [], key, v => [(key, [v])]
  | kv :: rest, key, v =>
    if kv.1 = key then (key, kv.2 ++ [v]) :: rest
    else kv :: setdefaultAppend rest key v

/-- `output_files[key] = vals`: dict assignment on an association list. -/
def setEntry : List (String × List String) → String → List String →
    List (String × List String)
  | [], key, vals => [(key, vals)]
  | kv :: rest, key, vals =>
    if kv.1 = key then (key, vals) :: rest
    else kv :: setEntry rest key vals

/-- Outcome of the `for fmt in formats` loop (lines 99-153). -/
inductive ConvertOut
  | done (out : List (String × List String))
  | cancelledLoop
  deriving DecidableEq, Repr

/-- The `for fmt in formats` conversion loop: per format, cancellation guard;
"glb" is served from the already-downloaded PBR model without conversion;
any other format awaits `client.convert_model` and runs the conversion
polling loop, omitting the format on remote failure or timeout. -/
def convertFormats (env : TripoEnv) (active : List String) (tid : Option String)
    (jobId : String) (pbr : Option String) :
    List String → List (String × List String) → List Event →
    Except Raised (ConvertOut × List Event)
  | [], out, evs => Except.ok (.done out, evs)
  | fmt :: rest, out, evs =>
    if cancelCheck active tid then Except.ok (.cancelledLoop, evs)
    else if fmt = "glb" then
      let out1 := if optTruthy pbr then setdefaultAppend out "glb" (pbr.getD "") else out
      convertFormats env active tid jobId pbr rest out1 evs
    else
      match awaitPt env evs (.convertModel jobId fmt) with
      | .error r => .error r
      | .ok evs1 =>
        match convPollLoop env active tid fmt (env.convJobId fmt) ("./output/" ++ fmt) 0 40 evs1 with
        | .error r => .error r
        | .ok (.cancelledLoop, evs2) => Except.ok (.cancelledLoop, evs2)
        | .ok (.succeeded paths, evs2) =>
          convertFormats env active tid jobId pbr rest (setEntry out fmt paths) evs2
        | .ok (.failedRemote, evs2) => convertFormats env active tid jobId pbr rest out evs2
        | .ok (.timeout, evs2) => convertFormats env active tid jobId pbr rest out evs2

/-- Body of `generate_3d_from_images` inside its try block: pre-submission
cancellation guard, single- vs multi-view submission by image count, the main
polling loop, the pre-download guard, the base download, the format loop, and
the final guard before the success dictionary is built. -/
def generateBody (env : TripoEnv) (active : List String)
    (imagePaths fmts : List String) (tid : Option String) (evs : List Event) :
    Except Raised (GenResult × List Event) :=
  if cancelCheck active tid then Except.ok (cancelledResult "Task cancelled", evs)
  else
    let subEv : Event :=
      if imagePaths.length = 1 then .submitSingle (imagePaths.headD "")
      else .submitMulti imagePaths
    let jobId : String := if imagePaths.length = 1 then env.singleJobId else env.multiJobId
    match awaitPt env evs subEv with
    | .error r => .error r
    | .ok evs1 =>
      match pollLoop env active tid jobId 0 100 evs1 with
      | .error r => .error r
      | .ok (.cancelledLoop, evs2) => Except.ok (cancelledResult "Task cancelled by user", evs2)
      | .ok (.failedRemote, evs2) =>
        Except.ok ({ status := "failed", details := env.failedDetails }, evs2)
      | .ok (.cancelledServer, evs2) => Except.ok (cancelledResult "Task cancelled on server", evs2)
      | .ok (.timeout, evs2) =>
        Except.ok ({ status := "error", message := "Task timeout" }, evs2)
      | .ok (.succeeded, evs2) =>
        if cancelCheck active tid then Except.ok (cancelledResult "Task cancelled", evs2)
        else
          match awaitPt env evs2 (.downloadModels jobId "./output") with
          | .error r => .error r
          | .ok evs3 =>
            let pbr := env.downloadMap.lookup "pbr_model"
            match convertFormats env active tid jobId pbr fmts [] evs3 with
            | .error r => .error r
            | .ok (.cancelledLoop, evs4) => Except.ok (cancelledResult "Task cancelled", evs4)
            | .ok (.done out, evs4) =>
              if cancelCheck active tid then Except.ok (cancelledResult "Task cancelled", evs4)
              else
                Except.ok ({ status := "success", task_id := some jobId,
                             pbr_model := pbr, files := out }, evs4)

/-- `generate_3d_from_images` of tripo_sdk_client.py, parameterised over the
module's `active_tasks` key set (the constant `tripoActiveTasks` in the real
process).  Entering the `async with TripoClient(...)` context is the
suspension point *outside* the try block (trace index 0): a CancelledError
delivered there propagates out of the function (`Except.error ()`), while one
delivered at any later suspension point is caught by the function's
`except asyncio.CancelledError` handler and turned into a normal
cancelled-status dictionary. -/
def generate_3d_from_images (env : TripoEnv) (active : List String)
    (imagePaths fmts : List String) (tid : Option String) :
    Except Unit GenResult × List Event :=
  if env.interruptAt = some 0 then (Except.error (), [])
  else
    match generateBody env active imagePaths fmts tid [Event.clientInit] with
    | .ok (r, evs) => (Except.ok r, evs)
    | .error evs => (Except.ok (cancelledResult "Task was cancelled"), evs)

/-- Status projection of a `generate_3d_from_images` outcome. -/
def genStatus (x : Except Unit GenResult × List Event) : Option String :=
  match x.1 with
  | .ok r => some r.status
  | .error _ => none

/-- Is this event a submission call to the external job service? -/
def isSubmit : Event → Bool
  | .submitSingle _ => true
  | .submitMulti _ => true
  | _ => false

/-- Number of submission calls in the trace of an outcome. -/
def submitCount (x : Except Unit GenResult × List Event) : Nat :=
  x.2.countP isSubmit

/-- Characters of the last path segment: the accumulator resets at each
separator. -/
def basenameAux (acc : List Char) : List Char → List Char
  | [] => acc
  | c :: rest => if c = '/' then basenameAux [] rest else basenameAux (acc ++ [c]) rest

/-- `os.path.basename`: everything after the last "/". -/
def basename (p : String) : String := String.mk (basenameAux [] p.data)

/-- The cleanup loop `for f in saved_files: if os.path.exists(f): os.remove(f)`
run by main.py on the cancellation and CancelledError paths: every
still-present saved input file is removed from the filesystem. -/
def removeSaved (fs saved : List String) : List String :=
  fs.filter (fun f => !(decide (f ∈ saved)))

/-- The `supabase_urls` dictionary built on the success path of
`process_3d_generation`. -/
structure FileUrls where
  glb : List String := []
  usdz : List String := []
  thumbnail : Option String := none
  deriving DecidableEq, Repr

/-- The dictionary returned by `process_3d_generation`; `gen` holds the
verbatim poller dictionary when it is passed through unchanged. -/
structure ProcResult where
  status : String
  message : String := ""
  file_urls : Option FileUrls := none
  gen : Option GenResult := none
  deriving DecidableEq, Repr

/-- Environment of `process_3d_generation`.  `reg k` is whether `task_id` is a
key of main.py's `active_tasks` at the orchestrator's k-th membership check
(the registry is mutated concurrently by the disconnect monitor and the
cancel endpoint, so membership is an oracle per checkpoint); `regFinal` is the
registry's key list at the moment the `finally` block runs; `tripoActive` is
the key set of tripo_sdk_client.py's own `active_tasks` dictionary, which is
`tripoActiveTasks = []` in the real process. -/
structure PEnv where
  gen : TripoEnv
  tripoActive : List String := tripoActiveTasks
  reg : Nat → Bool
  regFinal : List String := []
  uploadUrl : String → String

/-- Outcome of the USDZ upload loop (main.py lines 114-122). -/
inductive UploadOut
  | ok (fs : List String) (urls : List String)
  | cancelled (fs : List String)
  | moveError (fs : List String)
  deriving Repr

/-- The `for usdz in result.get("files", {}).get("usdz", [])` loop: per file,
a registry membership check (returning cancelled without any input cleanup if
absent), then `shutil.move` into ./output/usdz and an upload.  A move of a
non-existent file raises, which the surrounding generic handler turns into an
error-status return. -/
def usdzUploadLoop (penv : PEnv) : Nat → List String → List String → List String → UploadOut
  | _, [], fs, urls => .ok fs urls
  | k, u :: rest, fs, urls =>
    if !(penv.reg k) then .cancelled fs
    else if fs.contains u then
      usdzUploadLoop penv (k+1) rest
        ((fs.erase u) ++ ["./output/usdz/" ++ basename u])
        (urls ++ [penv.uploadUrl ("./output/usdz/" ++ basename u)])
    else .moveError fs

/-- The `finally` block of `process_3d_generation` (main.py lines 153-157):
`if task_id in active_tasks: del active_tasks[task_id]`.  Returns the new
registry key list and the number of removals performed (0 or 1). -/
def finallyDereg (reg : List String) (tid : String) : List String × Nat :=
  if tid ∈ reg then (reg.erase tid, 1) else (reg, 0)

/-- The disconnect monitor's cancellation action (main.py lines 197-200):
`task.cancel()` followed by a guarded removal from `active_tasks`.  Returns
the new registry key list and the number of removals performed. -/
def monitorCancel (reg : List String) (tid : String) : List String × Nat :=
  if tid ∈ reg then (reg.erase tid, 1) else (reg, 0)

/-- Full outcome of one run of `process_3d_generation`: the returned value
(`Except.error ()` when a CancelledError propagates to the awaiting caller),
the final filesystem, the trace of external-job-service calls, and the
registry key list and removal count after the `finally` block. -/
structure ProcOut where
  result : Except Unit ProcResult
  fs : List String
  events : List Event
  registry : List String
  deregs : Nat

/-- Body of `process_3d_generation` (try/except, without the finally):
registry pre-check with input cleanup, the await of the poller (whose
propagating CancelledError is caught, inputs cleaned, and re-raised),
pass-through of cancelled results (with input cleanup) and of non-success
results (without), the pre-upload registry check (no cleanup), the GLB
move-and-upload, the USDZ loop, and the thumbnail upload of the first input. -/
def processBody (penv : PEnv) (fs0 saved : List String) (tid : String) :
    Except Unit ProcResult × List String × List Event :=
  if !(penv.reg 0) then
    (Except.ok { status := "cancelled", message := "Task was cancelled" },
     removeSaved fs0 saved, [])
  else
    match generate_3d_from_images penv.gen penv.tripoActive saved ["glb", "usdz"] (some tid) with
    | (.error _, evs) => (Except.error (), removeSaved fs0 saved, evs)
    | (.ok r, evs) =>
      if r.status = "cancelled" then
        (Except.ok { status := r.status, message := r.message, gen := some r },
         removeSaved fs0 saved, evs)
      else if r.status != "success" then
        (Except.ok { status := r.status, message := r.message, gen := some r }, fs0, evs)
      else if !(penv.reg 1) then
        (Except.ok { status := "cancelled", message := "Task was cancelled" }, fs0, evs)
      else
        let glbStep : List String × List String :=
          match r.pbr_model with
          | some g =>
            if g != "" && fs0.contains g then
              ((fs0.erase g) ++ ["./output/glb/" ++ basename g],
               [penv.uploadUrl ("./output/glb/" ++ basename g)])
            else (fs0, [])
          | none => (fs0, [])
        match usdzUploadLoop penv 2 ((r.files.lookup "usdz").getD []) glbStep.1 [] with
        | .cancelled fs2 =>
          (Except.ok { status := "cancelled", message := "Task was cancelled" }, fs2, evs)
        | .moveError fs2 =>
          (Except.ok { status := "error", message := "move failed" }, fs2, evs)
        | .ok fs2 usdzUrls =>
          let thumb : Option String :=
            match saved with
            | [] => none
            | f0 :: _ => if fs2.contains f0 then some (penv.uploadUrl f0) else none
          (Except.ok { status := "success", message := "Models generated & uploaded",
                       file_urls := some { glb := glbStep.2, usdz := usdzUrls,
                                           thumbnail := thumb } }, fs2, evs)

/-- `process_3d_generation` of main.py: the body above, then the
unconditional `finally` deregistration, which runs on every exit path
(normal return, error return, and propagating CancelledError alike). -/
def process_3d_generation (penv : PEnv) (fs0 saved : List String) (tid : String) :
    ProcOut :=
  let b := processBody penv fs0 saved tid
  let fr := finallyDereg penv.regFinal tid
  { result := b.1, fs := b.2.1, events := b.2.2, registry := fr.1, deregs := fr.2 }

/-- Response of the `/cancel-generation` endpoint. -/
structure CancelResp where
  status : String
  message : String
  deriving DecidableEq, Repr

/-- `cancel_generation` of main.py (lines 217-229): `done` is
`active_tasks[task_id].done()`.  Every branch returns a normal structured
response; no branch raises. -/
def cancel_generation (reg : List String) (done : String → Bool) (tid : String) :
    CancelResp :=
  if tid ∈ reg then
    if !(done tid) then { status := "success", message := "Task " ++ tid ++ " cancelled" }
    else { status := "error", message := "Task already completed" }
  else { status := "error", message := "Task not found" }

/-- Response of the `/task-status` endpoint. -/
structure StatusResp where
  status : String
  task_id : String
  result : Option ProcResult := none
  error : Option String := none
  deriving DecidableEq, Repr

/-- `get_task_status` of main.py (lines 232-254): `done` is
`active_tasks[task_id].done()` and `res` is `task.result()` (which re-raises
the task's exception, modelled as `Except.error`). -/
def get_task_status (reg : List String) (done : String → Bool)
    (res : String → Except String ProcResult) (tid : String) : StatusResp :=
  if tid ∈ reg then
    if done tid then
      match res tid with
      | .ok r => { status := "completed", task_id := tid, result := some r }
      | .error e => { status := "failed", task_id := tid, error := some e }
    else { status := "processing", task_id := tid }
  else { status := "not_found", task_id := tid }

/-! ### Pure characterisation of the poller when no cancellation applies

With `task_id = None` every cancellation guard of tripo_sdk_client.py is
skipped (`if task_id and ...` is falsy), and with no CancelledError delivered
every await completes, so the poller's outcome is a pure function of the
environment.  The lemmas below prove the loop functions equal to their pure
counterparts and that the loops only ever append to the event trace, never
emitting a second submission call. -/

/-- Pure outcome of the main polling loop: poll index `n`, remaining
iterations `fuel`. -/
def pollPure (env : TripoEnv) : Nat → Nat → PollRes
  | _, 0 => .timeout
  | n, fuel+1 =>
    match env.status n with
    | .success => .succeeded
    | .failed => .failedRemote
    | .cancelled => .cancelledServer
    | _ => pollPure env (n+1) fuel

/-- Pure outcome of one format's conversion polling loop: `some paths` when
the conversion succeeds within the budget, `none` when it fails remotely or
times out. -/
def convPollPure (env : TripoEnv) (fmt : String) : Nat → Nat → Option (List String)
  | _, 0 => none
  | m, fuel+1 =>
    match env.convStatus fmt m with
    | .success => some ((env.convDownload fmt).filter (fun p => p != ""))
    | .failed => none
    | _ => convPollPure env fmt (m+1) fuel

/-- Effect of one iteration of the `for fmt in formats` loop on the
accumulated `output_files` dictionary. -/
def convStep (env : TripoEnv) (pbr : Option String)
    (out : List (String × List String)) (fmt : String) : List (String × List String) :=
  if fmt = "glb" then
    if optTruthy pbr then setdefaultAppend out "glb" (pbr.getD "") else out
  else
    match convPollPure env fmt 0 40 with
    | some paths => setEntry out fmt paths
    | none => out

/-- The dictionary returned by an uncancelled, uninterrupted run of
`generate_3d_from_images`, as a pure function of the environment. -/
def genPure (env : TripoEnv) (ps fmts : List String) : GenResult :=
  match pollPure env 0 100 with
  | .cancelledLoop => cancelledResult "Task cancelled by user"
  | .failedRemote => { status := "failed", details := env.failedDetails }
  | .cancelledServer => cancelledResult "Task cancelled on server"
  | .timeout => { status := "error", message := "Task timeout" }
  | .succeeded =>
    { status := "success"
      task_id := some (if ps.length = 1 then env.singleJobId else env.multiJobId)
      pbr_model := env.downloadMap.lookup "pbr_model"
      files := fmts.foldl (convStep env (env.downloadMap.lookup "pbr_model")) [] }

lemma cancelCheck_none (active : List String) : cancelCheck active none = false := rfl

lemma awaitPt_none (env : TripoEnv) (h : env.interruptAt = none)
    (evs : List Event) (e : Event) : awaitPt env evs e = Except.ok (evs ++ [e]) := by
  simp [awaitPt, h]

lemma pollLoop_none (env : TripoEnv) (active : List String) (jobId : String)
    (hI : env.interruptAt = none) :
    ∀ fuel n evs, ∃ t, pollLoop env active none jobId n fuel evs
        = Except.ok (pollPure env n fuel, evs ++ t)
      ∧ t.countP isSubmit = 0 := by
  intro fuel
  induction fuel with
  | zero =>
    intro n evs
    exact ⟨[], by simp [pollLoop, pollPure]⟩
  | succ fuel ih =>
    intro n evs
    cases hst : env.status n with
    | success => exact ⟨[.getTask jobId], by
        simp [pollLoop, pollPure, cancelCheck_none, awaitPt_none env hI, hst, isSubmit]⟩
    | failed => exact ⟨[.getTask jobId], by
        simp [pollLoop, pollPure, cancelCheck_none, awaitPt_none env hI, hst, isSubmit]⟩
    | cancelled => exact ⟨[.getTask jobId], by
        simp [pollLoop, pollPure, cancelCheck_none, awaitPt_none env hI, hst, isSubmit]⟩
    | queued =>
      obtain ⟨t, ht, hc⟩ := ih (n+1) (evs ++ [.getTask jobId] ++ [.sleepPoll])
      refine ⟨[.getTask jobId, .sleepPoll] ++ t, ?_, ?_⟩
      · simp only [pollLoop, cancelCheck_none, awaitPt_none env hI, hst, ht, pollPure]
        simp [List.append_assoc]
      · simp [List.countP_append, hc, isSubmit]
    | running =>
      obtain ⟨t, ht, hc⟩ := ih (n+1) (evs ++ [.getTask jobId] ++ [.sleepPoll])
      refine ⟨[.getTask jobId, .sleepPoll] ++ t, ?_, ?_⟩
      · simp only [pollLoop, cancelCheck_none, awaitPt_none env hI, hst, ht, pollPure]
        simp [List.append_assoc]
      · simp [List.countP_append, hc, isSubmit]

lemma convPollLoop_none (env : TripoEnv) (active : List String)
    (fmt cid dir : String) (hI : env.interruptAt = none) :
    ∀ fuel m evs, ∃ t res, convPollLoop env active none fmt cid dir m fuel evs
        = Except.ok (res, evs ++ t)
      ∧ t.countP isSubmit = 0
      ∧ (match convPollPure env fmt m fuel with
         | some ps => res = ConvRes.succeeded ps
         | none => res = ConvRes.failedRemote ∨ res = ConvRes.timeout) := by
  intro fuel
  induction fuel with
  | zero =>
    intro m evs
    exact ⟨[], .timeout, by simp [convPollLoop, convPollPure]⟩
  | succ fuel ih =>
    intro m evs
    cases hst : env.convStatus fmt m with
    | success =>
      refine ⟨[.getTask cid, .downloadModels cid dir],
        .succeeded ((env.convDownload fmt).filter (fun p => p != "")), ?_, ?_, ?_⟩
      · simp only [convPollLoop, cancelCheck_none, awaitPt_none env hI, hst]
        simp [List.append_assoc]
      · simp [isSubmit]
      · simp [convPollPure, hst]
    | failed =>
      refine ⟨[.getTask cid], .failedRemote, ?_, ?_, ?_⟩
      · simp [convPollLoop, cancelCheck_none, awaitPt_none env hI, hst]
      · simp [isSubmit]
      · simp [convPollPure, hst]
    | queued =>
      obtain ⟨t, res, ht, hc, hm⟩ := ih (m+1) (evs ++ [.getTask cid] ++ [.sleepPoll])
      refine ⟨[.getTask cid, .sleepPoll] ++ t, res, ?_, ?_, ?_⟩
      · simp only [convPollLoop, cancelCheck_none, awaitPt_none env hI, hst, ht]
        simp [List.append_assoc]
      · simp [List.countP_append, hc, isSubmit]
      · simpa [convPollPure, hst] using hm
    | running =>
      obtain ⟨t, res, ht, hc, hm⟩ := ih (m+1) (evs ++ [.getTask cid] ++ [.sleepPoll])
      refine ⟨[.getTask cid, .sleepPoll] ++ t, res, ?_, ?_, ?_⟩
      · simp only [convPollLoop, cancelCheck_none, awaitPt_none env hI, hst, ht]
        simp [List.append_assoc]
      · simp [List.countP_append, hc, isSubmit]
      · simpa [convPollPure, hst] using hm
    | cancelled =>
      obtain ⟨t, res, ht, hc, hm⟩ := ih (m+1) (evs ++ [.getTask cid] ++ [.sleepPoll])
      refine ⟨[.getTask cid, .sleepPoll] ++ t, res, ?_, ?_, ?_⟩
      · simp only [convPollLoop, cancelCheck_none, awaitPt_none env hI, hst, ht]
        simp [List.append_assoc]
      · simp [List.countP_append, hc, isSubmit]
      · simpa [convPollPure, hst] using hm

lemma convertFormats_none (env : TripoEnv) (active : List String)
    (jobId : String) (pbr : Option String) (hI : env.interruptAt = none) :
    ∀ fmts out evs, ∃ t, convertFormats env active none jobId pbr fmts out evs
        = Except.ok (ConvertOut.done (fmts.foldl (convStep env pbr) out), evs ++ t)
      ∧ t.countP isSubmit = 0 := by
  intro fmts
  induction fmts with
  | nil =>
    intro out evs
    exact ⟨[], by simp [convertFormats]⟩
  | cons fmt rest ih =>
    intro out evs
    by_cases hglb : fmt = "glb"
    · obtain ⟨t, ht, hc⟩ := ih (convStep env pbr out fmt) evs
      refine ⟨t, ?_, hc⟩
      subst hglb
      simpa [convertFormats, cancelCheck_none, convStep] using ht
    · obtain ⟨t0, res, ht0, hc0, hm⟩ :=
        convPollLoop_none env active fmt (env.convJobId fmt) ("./output/" ++ fmt) hI
          40 0 (evs ++ [.convertModel jobId fmt])
      cases hp : convPollPure env fmt 0 40 with
      | some ps =>
        rw [hp] at hm
        obtain ⟨t1, ht1, hc1⟩ := ih (setEntry out fmt ps) (evs ++ [.convertModel jobId fmt] ++ t0)
        refine ⟨[.convertModel jobId fmt] ++ t0 ++ t1, ?_, ?_⟩
        · simp only [convertFormats, cancelCheck_none, awaitPt_none env hI, hglb,
            if_neg hglb, ht0, hm, ht1, convStep, hp]
          simp [List.append_assoc, convStep, hglb, hp]
        · simp [List.countP_append, hc0, hc1, isSubmit]
      | none =>
        rw [hp] at hm
        obtain ⟨t1, ht1, hc1⟩ := ih out (evs ++ [.convertModel jobId fmt] ++ t0)
        refine ⟨[.convertModel jobId fmt] ++ t0 ++ t1, ?_, ?_⟩
        · rcases hm with hm | hm <;>
          · simp only [convertFormats, cancelCheck_none, awaitPt_none env hI,
              if_neg hglb, ht0, hm, ht1, convStep, hp]
            simp [List.append_assoc, convStep, hglb, hp]
        · simp [List.countP_append, hc0, hc1, isSubmit]

/-- Submission event of an uncancelled run, selected by image count. -/
def submitEvent (ps : List String) : Event :=
  if ps.length = 1 then .submitSingle (ps.headD "") else .submitMulti ps

lemma lookup_setEntry_self (k : String) (v : List String) :
    ∀ out : List (String × List String), (setEntry out k v).lookup k = some v := by
  intro out
  induction out with
  | nil => simp [setEntry, List.lookup]
  | cons kv rest ih =>
    by_cases h : kv.1 = k
    · simp [setEntry, h, List.lookup]
    · simp only [setEntry, if_neg h]
      rw [List.lookup_cons]
      simp [beq_false_of_ne (fun he => h he.symm), ih]

lemma lookup_setEntry_ne (k k2 : String) (v : List String) (h : k2 ≠ k) :
    ∀ out : List (String × List String), (setEntry out k v).lookup k2 = out.lookup k2 := by
  intro out
  induction out with
  | nil => simp [setEntry, List.lookup, beq_false_of_ne h]
  | cons kv rest ih =>
    by_cases hk : kv.1 = k
    · simp only [setEntry, if_pos hk]
      rw [List.lookup_cons, List.lookup_cons]
      simp [beq_false_of_ne h, beq_false_of_ne (fun he => h (he.trans hk))]
    · simp only [setEntry, if_neg hk]
      rw [List.lookup_cons, List.lookup_cons]
      cases hbe : k2 == kv.1 with
      | true => rfl
      | false => simpa using ih

lemma lookup_setdefaultAppend_ne (k k2 v : String) (h : k2 ≠ k) :
    ∀ out : List (String × List String),
      (setdefaultAppend out k v).lookup k2 = out.lookup k2 := by
  intro out
  induction out with
  | nil => simp [setdefaultAppend, List.lookup, beq_false_of_ne h]
  | cons kv rest ih =>
    by_cases hk : kv.1 = k
    · simp only [setdefaultAppend, if_pos hk]
      rw [List.lookup_cons, List.lookup_cons]
      simp [beq_false_of_ne h, beq_false_of_ne (fun he => h (he.trans hk))]
    · simp only [setdefaultAppend, if_neg hk]
      rw [List.lookup_cons, List.lookup_cons]
      cases hbe : k2 == kv.1 with
      | true => rfl
      | false => simpa using ih

lemma lookup_setdefaultAppend_none (k v : String) :
    ∀ out : List (String × List String), out.lookup k = none →
      (setdefaultAppend out k v).lookup k = some [v] := by
  intro out
  induction out with
  | nil => intro _; simp [setdefaultAppend, List.lookup]
  | cons kv rest ih =>
    intro hout
    rw [List.lookup_cons] at hout
    by_cases hk : kv.1 = k
    · subst hk
      simp [beq_self_eq_true] at hout
    · simp only [setdefaultAppend, if_neg hk]
      rw [List.lookup_cons]
      cases hbe : k == kv.1 with
      | true =>
        exact absurd (eq_of_beq hbe) (fun he => hk he.symm)
      | false =>
        rw [hbe] at hout
        simpa using ih hout

/-- Keys not occurring in the remaining format list are untouched by the
conversion fold. -/
lemma convFold_lookup_stable (env : TripoEnv) (pbr : Option String) (k : String) :
    ∀ (l : List String) (out : List (String × List String)), k ∉ l →
      (l.foldl (convStep env pbr) out).lookup k = out.lookup k := by
  intro l
  induction l with
  | nil => intro out _; rfl
  | cons a rest ih =>
    intro out hk
    have hka : k ≠ a := fun he => hk (he ▸ List.mem_cons_self a rest)
    have hkrest : k ∉ rest := fun hm => hk (List.mem_cons_of_mem a hm)
    rw [List.foldl_cons, ih (convStep env pbr out a) hkrest]
    by_cases hglb : a = "glb"
    · simp only [convStep, if_pos hglb]
      by_cases hp : optTruthy pbr = true
      · rw [if_pos hp, lookup_setdefaultAppend_ne "glb" k (pbr.getD "") (hglb ▸ hka)]
      · rw [if_neg hp]
    · simp only [convStep, if_neg hglb]
      cases hcp : convPollPure env a 0 40 with
      | some ps => rw [lookup_setEntry_ne a k ps hka]
      | none => rfl

/-- A format converted successfully is mapped to its downloaded paths by the
conversion fold, provided the format occurs exactly once. -/
lemma convFold_lookup_found (env : TripoEnv) (pbr : Option String) (g : String)
    (ps : List String) (hgglb : g ≠ "glb") (hcp : convPollPure env g 0 40 = some ps) :
    ∀ (l : List String) (out : List (String × List String)), g ∈ l → l.Nodup →
      (l.foldl (convStep env pbr) out).lookup g = some ps := by
  intro l
  induction l with
  | nil => intro out hmem _; exact absurd hmem (List.not_mem_nil g)
  | cons a rest ih =>
    intro out hmem hnd
    rw [List.foldl_cons]
    by_cases ha : a = g
    · subst ha
      have hnotin : a ∉ rest := (List.nodup_cons.mp hnd).1
      rw [convFold_lookup_stable env pbr a rest _ hnotin]
      simp only [convStep, if_neg hgglb, hcp]
      exact lookup_setEntry_self a ps _
    · have hmem2 : g ∈ rest := by
        rcases List.mem_cons.mp hmem with h | h
        · exact absurd h.symm ha
        · exact h
      exact ih (convStep env pbr out a) hmem2 (List.nodup_cons.mp hnd).2

/-- A format whose conversion failed remotely or timed out is absent from the
conversion fold (its step is the identity). -/
lemma convFold_lookup_bad (env : TripoEnv) (pbr : Option String) (f : String)
    (hfglb : f ≠ "glb") (hbad : convPollPure env f 0 40 = none) :
    ∀ (l : List String) (out : List (String × List String)),
      (l.foldl (convStep env pbr) out).lookup f = out.lookup f := by
  intro l
  induction l with
  | nil => intro out; rfl
  | cons a rest ih =>
    intro out
    rw [List.foldl_cons, ih (convStep env pbr out a)]
    by_cases hglb : a = "glb"
    · simp only [convStep, if_pos hglb]
      by_cases hp : optTruthy pbr = true
      · rw [if_pos hp, lookup_setdefaultAppend_ne "glb" f (pbr.getD "") hfglb]
      · rw [if_neg hp]
    · simp only [convStep, if_neg hglb]
      by_cases ha : a = f
      · subst ha
        rw [hbad]
      · cases hcp : convPollPure env a 0 40 with
        | some ps => rw [lookup_setEntry_ne a f ps (fun he => ha he.symm)]
        | none => rfl

/-- The value the conversion fold assigns to the "glb" key: the PBR model
path from the base download when it is truthy, absent otherwise. -/
def glbExpected (pbr : Option String) : Option (List String) :=
  if optTruthy pbr then some [pbr.getD ""] else none

/-- The "glb" entry of the conversion fold, when "glb" occurs exactly once in
the requested formats and the fold starts from the empty dictionary. -/
lemma convFold_lookup_glb (env : TripoEnv) (pbr : Option String) :
    ∀ (l : List String), "glb" ∈ l → l.Nodup →
      (l.foldl (convStep env pbr) []).lookup "glb" = glbExpected pbr := by
  have stable : ∀ (l : List String) (out : List (String × List String)), "glb" ∉ l →
      (l.foldl (convStep env pbr) out).lookup "glb" = out.lookup "glb" := by
    intro l
    induction l with
    | nil => intro out _; rfl
    | cons a rest ih =>
      intro out hk
      have hka : a ≠ "glb" := fun he => hk (he ▸ List.mem_cons_self a rest)
      have hkrest : "glb" ∉ rest := fun hm => hk (List.mem_cons_of_mem a hm)
      rw [List.foldl_cons, ih (convStep env pbr out a) hkrest]
      simp only [convStep, if_neg hka]
      cases hcp : convPollPure env a 0 40 with
      | some ps => rw [lookup_setEntry_ne a "glb" ps (Ne.symm hka)]
      | none => rfl
  have front : ∀ (l : List String) (out : List (String × List String)),
      out.lookup "glb" = none → "glb" ∈ l → l.Nodup →
      (l.foldl (convStep env pbr) out).lookup "glb" = glbExpected pbr := by
    intro l
    induction l with
    | nil => intro out _ hmem _; exact absurd hmem (List.not_mem_nil _)
    | cons a rest ih =>
      intro out hout hmem hnd
      rw [List.foldl_cons]
      by_cases ha : a = "glb"
      · have hnotin : "glb" ∉ rest := ha ▸ (List.nodup_cons.mp hnd).1
        rw [stable rest _ hnotin]
        simp only [convStep, if_pos ha, glbExpected]
        by_cases hp : optTruthy pbr = true
        · rw [if_pos hp, if_pos hp]
          exact lookup_setdefaultAppend_none "glb" (pbr.getD "") out hout
        · rw [if_neg hp, if_neg hp, hout]
      · have hmem2 : "glb" ∈ rest := by
          rcases List.mem_cons.mp hmem with h | h
          · exact absurd h.symm ha
          · exact h
        have hstep : (convStep env pbr out a).lookup "glb" = none := by
          simp only [convStep, if_neg ha]
          cases hcp : convPollPure env a 0 40 with
          | some ps => rw [lookup_setEntry_ne a "glb" ps (fun h => ha h.symm), hout]
          | none => exact hout
        exact ih (convStep env pbr out a) hstep hmem2 (List.nodup_cons.mp hnd).2
  intro l hmem hnd
  exact front l [] rfl hmem hnd

/-- Master characterisation of `generate_3d_from_images` for `task_id = None`
and no delivered CancelledError: the outcome is `genPure`, the trace is the
client construction followed by exactly one submission call selected by image
count, and no later event is ever a submission call. -/
lemma generate_none_eq (env : TripoEnv) (active : List String)
    (ps fmts : List String) (hI : env.interruptAt = none) :
    ∃ t, generate_3d_from_images env active ps fmts none
        = (Except.ok (genPure env ps fmts), Event.clientInit :: submitEvent ps :: t)
      ∧ t.countP isSubmit = 0 := by
  have hne : ¬ env.interruptAt = some 0 := by simp [hI]
  by_cases hlen : ps.length = 1
  · obtain ⟨t0, ht0, hc0⟩ := pollLoop_none env active env.singleJobId hI
      100 0 ([Event.clientInit] ++ [Event.submitSingle (ps.headD "")])
    cases hres : pollPure env 0 100 with
    | succeeded =>
      rw [hres] at ht0
      obtain ⟨t1, ht1, hc1⟩ := convertFormats_none env active env.singleJobId
        (env.downloadMap.lookup "pbr_model") hI fmts []
        ([Event.clientInit] ++ [Event.submitSingle (ps.headD "")] ++ t0
          ++ [Event.downloadModels env.singleJobId "./output"])
      refine ⟨t0 ++ [Event.downloadModels env.singleJobId "./output"] ++ t1, ?_, ?_⟩
      · simp only [generate_3d_from_images, if_neg hne, generateBody, cancelCheck_none,
          Bool.false_eq_true, if_false, if_pos hlen, awaitPt_none env hI, ht0, ht1]
        simp [genPure, hres, submitEvent, hlen, List.append_assoc]
      · simp [List.countP_append, hc0, hc1, isSubmit]
    | cancelledLoop =>
      rw [hres] at ht0
      refine ⟨t0, ?_, hc0⟩
      simp only [generate_3d_from_images, if_neg hne, generateBody, cancelCheck_none,
        Bool.false_eq_true, if_false, if_pos hlen, awaitPt_none env hI, ht0]
      simp [genPure, hres, submitEvent, hlen]
    | failedRemote =>
      rw [hres] at ht0
      refine ⟨t0, ?_, hc0⟩
      simp only [generate_3d_from_images, if_neg hne, generateBody, cancelCheck_none,
        Bool.false_eq_true, if_false, if_pos hlen, awaitPt_none env hI, ht0]
      simp [genPure, hres, submitEvent, hlen]
    | cancelledServer =>
      rw [hres] at ht0
      refine ⟨t0, ?_, hc0⟩
      simp only [generate_3d_from_images, if_neg hne, generateBody, cancelCheck_none,
        Bool.false_eq_true, if_false, if_pos hlen, awaitPt_none env hI, ht0]
      simp [genPure, hres, submitEvent, hlen]
    | timeout =>
      rw [hres] at ht0
      refine ⟨t0, ?_, hc0⟩
      simp only [generate_3d_from_images, if_neg hne, generateBody, cancelCheck_none,
        Bool.false_eq_true, if_false, if_pos hlen, awaitPt_none env hI, ht0]
      simp [genPure, hres, submitEvent, hlen]
  · obtain ⟨t0, ht0, hc0⟩ := pollLoop_none env active env.multiJobId hI
      100 0 ([Event.clientInit] ++ [Event.submitMulti ps])
    cases hres : pollPure env 0 100 with
    | succeeded =>
      rw [hres] at ht0
      obtain ⟨t1, ht1, hc1⟩ := convertFormats_none env active env.multiJobId
        (env.downloadMap.lookup "pbr_model") hI fmts []
        ([Event.clientInit] ++ [Event.submitMulti ps] ++ t0
          ++ [Event.downloadModels env.multiJobId "./output"])
      refine ⟨t0 ++ [Event.downloadModels env.multiJobId "./output"] ++ t1, ?_, ?_⟩
      · simp only [generate_3d_from_images, if_neg hne, generateBody, cancelCheck_none,
          Bool.false_eq_true, if_false, if_neg hlen, awaitPt_none env hI, ht0, ht1]
        simp [genPure, hres, submitEvent, hlen, List.append_assoc]
      · simp [List.countP_append, hc0, hc1, isSubmit]
    | cancelledLoop =>
      rw [hres] at ht0
      refine ⟨t0, ?_, hc0⟩
      simp only [generate_3d_from_images, if_neg hne, generateBody, cancelCheck_none,
        Bool.false_eq_true, if_false, if_neg hlen, awaitPt_none env hI, ht0]
      simp [genPure, hres, submitEvent, hlen]
    | failedRemote =>
      rw [hres] at ht0
      refine ⟨t0, ?_, hc0⟩
      simp only [generate_3d_from_images, if_neg hne, generateBody, cancelCheck_none,
        Bool.false_eq_true, if_false, if_neg hlen, awaitPt_none env hI, ht0]
      simp [genPure, hres, submitEvent, hlen]
    | cancelledServer =>
      rw [hres] at ht0
      refine ⟨t0, ?_, hc0⟩
      simp only [generate_3d_from_images, if_neg hne, generateBody, cancelCheck_none,
        Bool.false_eq_true, if_false, if_neg hlen, awaitPt_none env hI, ht0]
      simp [genPure, hres, submitEvent, hlen]
    | timeout =>
      rw [hres] at ht0
      refine ⟨t0, ?_, hc0⟩
      simp only [generate_3d_from_images, if_neg hne, generateBody, cancelCheck_none,
        Bool.false_eq_true, if_false, if_neg hlen, awaitPt_none env hI, ht0]
      simp [genPure, hres, submitEvent, hlen]
/-! ### Helper lemmas shared by several claims -/

lemma not_mem_removeSaved (fs saved : List String) (f : String) (hf : f ∈ saved) :
    f ∉ removeSaved fs saved := by
  simp only [removeSaved, List.mem_filter]
  rintro ⟨-, hc⟩
  simp [hf] at hc

lemma finallyDereg_not_mem (reg : List String) (tid : String) (hnd : reg.Nodup) :
    tid ∉ (finallyDereg reg tid).1 := by
  unfold finallyDereg
  by_cases h : tid ∈ reg
  · rw [if_pos h]
    exact hnd.not_mem_erase
  · rw [if_neg h]
    exact h

/-! ### Claims -/

/-- C1 (amended: the task id must additionally be non-empty, since Python's
`if task_id and ...` also skips the check for the empty string).  For every
call to `generate_3d_from_images` with a non-None, non-empty task id, the
function consults the module-level `active_tasks` dictionary of
tripo_sdk_client.py itself (`tripoActiveTasks`, never populated by any code
and distinct from main.py's registry, which the function cannot see), so the
pre-submission membership check fails and a cancelled-status result is
returned with no call on the external job client — the trace holds only the
client construction, in particular zero submission calls. -/
theorem claim_C1 (env : TripoEnv) (ps fmts : List String) (t : String)
    (ht : t ≠ "") (hI : env.interruptAt ≠ some 0) :
    generate_3d_from_images env tripoActiveTasks ps fmts (some t)
      = (Except.ok (cancelledResult "Task cancelled"), [Event.clientInit])
    ∧ submitCount (generate_3d_from_images env tripoActiveTasks ps fmts (some t)) = 0 := by
  have hcc : cancelCheck tripoActiveTasks (some t) = true := by
    simp [cancelCheck, tripoActiveTasks, ht]
  constructor
  · simp [generate_3d_from_images, hI, generateBody, hcc]
  · simp [submitCount, generate_3d_from_images, hI, generateBody, hcc, isSubmit]

theorem claim_C1_witness :
    generate_3d_from_images {} tripoActiveTasks ["a.png"] ["glb", "usdz"] (some "task_1")
      = (Except.ok (cancelledResult "Task cancelled"), [Event.clientInit]) :=
  (claim_C1 {} ["a.png"] ["glb", "usdz"] "task_1" (by decide) (by decide)).1

/-- Environment where the external job succeeds on the first poll. -/
def envQuickSuccess : TripoEnv :=
  { status := fun _ => .success
    downloadMap := [("pbr_model", "./output/m.glb")] }

/-- C1 counterexample: `some ""` is a non-None task id, yet Python truthiness
makes `if task_id and ...` skip the membership check, so the function does
NOT return cancelled and does submit to the external job client. -/
theorem claim_C1_counterexample :
    genStatus (generate_3d_from_images envQuickSuccess tripoActiveTasks
      ["a.png"] [] (some "")) = some "success"
    ∧ submitCount (generate_3d_from_images envQuickSuccess tripoActiveTasks
        ["a.png"] [] (some "")) = 1 := by
  decide

/-- C2: for every task whose id is absent from main.py's registry at the
orchestrator's pre-submission check, `process_3d_generation` returns a
cancelled result, performs no call at all on the external job client (empty
trace), and deletes every still-present local input file. -/
theorem claim_C2 (penv : PEnv) (fs0 saved : List String) (tid : String)
    (h : penv.reg 0 = false) :
    (process_3d_generation penv fs0 saved tid).result
        = Except.ok { status := "cancelled", message := "Task was cancelled" }
    ∧ (process_3d_generation penv fs0 saved tid).events = []
    ∧ (process_3d_generation penv fs0 saved tid).fs = removeSaved fs0 saved
    ∧ ∀ f ∈ saved, f ∉ (process_3d_generation penv fs0 saved tid).fs := by
  have hb : processBody penv fs0 saved tid
      = (Except.ok { status := "cancelled", message := "Task was cancelled" },
         removeSaved fs0 saved, []) := by
    simp [processBody, h]
  refine ⟨?_, ?_, ?_, ?_⟩
  · simp [process_3d_generation, hb]
  · simp [process_3d_generation, hb]
  · simp [process_3d_generation, hb]
  · intro f hf
    have : (process_3d_generation penv fs0 saved tid).fs = removeSaved fs0 saved := by
      simp [process_3d_generation, hb]
    rw [this]
    exact not_mem_removeSaved fs0 saved f hf

def penvC2W : PEnv :=
  { gen := {}
    reg := fun _ => false
    uploadUrl := fun p => p }

theorem claim_C2_witness :
    (process_3d_generation penvC2W ["in.png"] ["in.png"] "t").result
        = Except.ok { status := "cancelled", message := "Task was cancelled" }
    ∧ (process_3d_generation penvC2W ["in.png"] ["in.png"] "t").events = []
    ∧ (process_3d_generation penvC2W ["in.png"] ["in.png"] "t").fs
        = removeSaved ["in.png"] ["in.png"]
    ∧ ∀ f ∈ ["in.png"], f ∉ (process_3d_generation penvC2W ["in.png"] ["in.png"] "t").fs :=
  claim_C2 penvC2W ["in.png"] ["in.png"] "t" rfl

/-- C4 (amended): `cancel_generation` never raises — every branch returns a
structured response — but the second call after a completed cancellation
returns `status = "error"` (message "Task not found" once the task has been
deregistered, or "Task already completed" while it is still registered but
done), not an `already_terminal`/`not_found` status value; the first call on
a registered, not-done task returns `status = "success"`. -/
theorem claim_C4 (reg : List String) (done : String → Bool) (tid : String) :
    (tid ∈ reg → done tid = false →
       cancel_generation reg done tid
         = { status := "success", message := "Task " ++ tid ++ " cancelled" })
    ∧ (tid ∈ reg → done tid = true →
       cancel_generation reg done tid
         = { status := "error", message := "Task already completed" })
    ∧ (tid ∉ reg →
       cancel_generation reg done tid
         = { status := "error", message := "Task not found" }) := by
  refine ⟨?_, ?_, ?_⟩
  · intro h1 h2
    simp [cancel_generation, h1, h2]
  · intro h1 h2
    simp [cancel_generation, h1, h2]
  · intro h1
    simp [cancel_generation, h1]

theorem claim_C4_witness :
    cancel_generation ["a"] (fun _ => false) "a"
      = { status := "success", message := "Task a cancelled" } :=
  (claim_C4 ["a"] (fun _ => false) "a").1 (by decide) rfl

/-- C4 counterexample: after a first successful cancellation (registered,
not-done task) the task ends up deregistered, and the second call returns a
response whose status field is the string "error" — not an
already_terminal/not_found outcome distinct from an error. -/
theorem claim_C4_counterexample :
    (cancel_generation ["t1"] (fun _ => false) "t1").status = "success"
    ∧ cancel_generation [] (fun _ => false) "t1"
        = { status := "error", message := "Task not found" }
    ∧ (cancel_generation [] (fun _ => false) "t1").status = "error" := by
  decide

/-- C5: the `finally` block deregisters the task on every exit path, so after
any terminal state the registry no longer holds the task id; and when the
disconnect monitor already removed the id (cancellation after submission,
before the first poll completes), the monitor's removal is the single
deregistration — the guarded `finally` performs zero removals instead of
raising a double-removal error, and no registry entry leaks. -/
theorem claim_C5 (penv : PEnv) (fs0 saved : List String) (tid : String)
    (hnd : penv.regFinal.Nodup) :
    tid ∉ (process_3d_generation penv fs0 saved tid).registry
    ∧ (∀ reg0 : List String, reg0.Nodup → tid ∈ reg0 →
        penv.regFinal = (monitorCancel reg0 tid).1 →
        (monitorCancel reg0 tid).2 = 1
        ∧ (process_3d_generation penv fs0 saved tid).deregs = 0
        ∧ tid ∉ (process_3d_generation penv fs0 saved tid).registry) := by
  have hreg : (process_3d_generation penv fs0 saved tid).registry
      = (finallyDereg penv.regFinal tid).1 := rfl
  have hder : (process_3d_generation penv fs0 saved tid).deregs
      = (finallyDereg penv.regFinal tid).2 := rfl
  constructor
  · rw [hreg]
    exact finallyDereg_not_mem _ _ hnd
  · intro reg0 hnd0 hmem heq
    have h2 : (monitorCancel reg0 tid).2 = 1 := by simp [monitorCancel, hmem]
    have h1 : (monitorCancel reg0 tid).1 = reg0.erase tid := by simp [monitorCancel, hmem]
    have hnm : tid ∉ penv.regFinal := by
      rw [heq, h1]
      exact hnd0.not_mem_erase
    refine ⟨h2, ?_, ?_⟩
    · rw [hder]
      simp [finallyDereg, hnm]
    · rw [hreg]
      exact finallyDereg_not_mem _ _ hnd

def penvC5W : PEnv :=
  { gen := {}
    reg := fun _ => true
    regFinal := ["x"]
    uploadUrl := fun p => p }

theorem claim_C5_witness :
    "t" ∉ (process_3d_generation penvC5W [] [] "t").registry
    ∧ (monitorCancel ["t", "x"] "t").2 = 1
    ∧ (process_3d_generation penvC5W [] [] "t").deregs = 0 := by
  have h := claim_C5 penvC5W [] [] "t" (by decide)
  have h2 := h.2 ["t", "x"] (by decide) (by decide) (by decide)
  exact ⟨h.1, h2.1, h2.2.1⟩

/-- Environment where the external job succeeds on the first poll, the base
download yields a PBR model, and the usdz conversion succeeds immediately. -/
def genvSuccess : TripoEnv :=
  { status := fun _ => .success
    downloadMap := [("pbr_model", "./output/m.glb")]
    convStatus := fun _ _ => .success
    convDownload := fun f => if f = "usdz" then ["./output/u.usdz"] else [] }

/-- Scenario for C6: the CancelledError is delivered at suspension point 1,
the submission await inside the Job Poller's try block. -/
def penvC6W : PEnv :=
  { gen := { genvSuccess with interruptAt := some 1 }
    tripoActive := ["t"]
    reg := fun _ => true
    regFinal := ["t"]
    uploadUrl := fun p => p }

/-- C6 (amended): a CancelledError delivered at the client-initialisation
suspension point — the only suspension point outside the Job Poller's try
block — propagates out of `process_3d_generation` after the input files are
deleted, so the awaiting caller observes the cancellation; but a
CancelledError delivered at a suspension point inside the Job Poller's try
block (e.g. the submission await) is caught by the poller's
`except asyncio.CancelledError` handler and converted into a normal
cancelled-status dictionary, which the orchestrator returns as an ordinary
value (after deleting the inputs) instead of re-raising. -/
theorem claim_C6 :
    (∀ (penv : PEnv) (fs0 saved : List String) (tid : String),
        penv.gen.interruptAt = some 0 → penv.reg 0 = true →
        (process_3d_generation penv fs0 saved tid).result = Except.error ()
        ∧ (process_3d_generation penv fs0 saved tid).fs = removeSaved fs0 saved
        ∧ ∀ f ∈ saved, f ∉ (process_3d_generation penv fs0 saved tid).fs)
    ∧ ((process_3d_generation penvC6W ["in.png"] ["in.png"] "t").result
        = Except.ok { status := "cancelled", message := "Task was cancelled",
                      gen := some (cancelledResult "Task was cancelled") }
       ∧ "in.png" ∉ (process_3d_generation penvC6W ["in.png"] ["in.png"] "t").fs) := by
  constructor
  · intro penv fs0 saved tid h0 h1
    have hb : processBody penv fs0 saved tid = (Except.error (), removeSaved fs0 saved, []) := by
      simp [processBody, h1, generate_3d_from_images, h0]
    refine ⟨?_, ?_, ?_⟩
    · simp [process_3d_generation, hb]
    · simp [process_3d_generation, hb]
    · intro f hf
      have : (process_3d_generation penv fs0 saved tid).fs = removeSaved fs0 saved := by
        simp [process_3d_generation, hb]
      rw [this]
      exact not_mem_removeSaved fs0 saved f hf
  · constructor
    · rfl
    · decide

/-- Scenario where the CancelledError is delivered at the client-init
suspension point (index 0), outside the poller's try block. -/
def penvC6Z : PEnv :=
  { gen := { interruptAt := some 0 }
    reg := fun _ => true
    uploadUrl := fun p => p }

theorem claim_C6_witness :
    (process_3d_generation penvC6Z ["in.png"] ["in.png"] "t").result = Except.error ()
    ∧ (process_3d_generation penvC6Z ["in.png"] ["in.png"] "t").fs
        = removeSaved ["in.png"] ["in.png"] :=
  have h := claim_C6.1 penvC6Z ["in.png"] ["in.png"] "t" rfl rfl
  ⟨h.1, h.2.1⟩

/-- C6 counterexample: with the CancelledError delivered at a suspension
point inside the Job Poller (the submission await), the awaiting caller
receives a normal cancelled-status value, not a propagating cancellation. -/
theorem claim_C6_counterexample :
    (process_3d_generation penvC6W ["in.png"] ["in.png"] "t").result
        ≠ Except.error ()
    ∧ (process_3d_generation penvC6W ["in.png"] ["in.png"] "t").result
        = Except.ok { status := "cancelled", message := "Task was cancelled",
                      gen := some (cancelledResult "Task was cancelled") } := by
  have he : (process_3d_generation penvC6W ["in.png"] ["in.png"] "t").result
      = Except.ok { status := "cancelled", message := "Task was cancelled",
                    gen := some (cancelledResult "Task was cancelled") } := rfl
  refine ⟨?_, he⟩
  rw [he]
  simp

/-- Scenario for C7's pre-upload checkpoint: the task is registered at the
orchestrator's check 0 but deregistered by the time of check 1 (before
upload), with the poller itself succeeding. -/
def penvC7W : PEnv :=
  { gen := genvSuccess
    tripoActive := ["t"]
    reg := fun k => decide (k = 0)
    uploadUrl := fun p => p }

/-- C7 (amended): local input files are deleted on the running-to-cancelled
transitions taken at the orchestrator's pre-submission check and on any
cancelled result returned by the Job Poller (which covers the poller's own
checkpoints, including at completion); but at the before-upload checkpoint
(and likewise before each individual USDZ upload) the orchestrator returns a
cancelled result WITHOUT deleting the still-present input files. -/
theorem claim_C7 :
    (∀ (penv : PEnv) (fs0 saved : List String) (tid : String),
        penv.reg 0 = false →
        (process_3d_generation penv fs0 saved tid).result
          = Except.ok { status := "cancelled", message := "Task was cancelled" }
        ∧ ∀ f ∈ saved, f ∉ (process_3d_generation penv fs0 saved tid).fs)
    ∧ (∀ (penv : PEnv) (fs0 saved : List String) (tid : String),
        penv.reg 0 = true → penv.gen.interruptAt = none →
        tid ≠ "" → tid ∉ penv.tripoActive →
        (process_3d_generation penv fs0 saved tid).result
          = Except.ok { status := "cancelled", message := "Task cancelled",
                        gen := some (cancelledResult "Task cancelled") }
        ∧ ∀ f ∈ saved, f ∉ (process_3d_generation penv fs0 saved tid).fs)
    ∧ ((process_3d_generation penvC7W ["in.png"] ["in.png"] "t").result
        = Except.ok { status := "cancelled", message := "Task was cancelled" }
       ∧ "in.png" ∈ (process_3d_generation penvC7W ["in.png"] ["in.png"] "t").fs) := by
  refine ⟨?_, ?_, ?_, ?_⟩
  · intro penv fs0 saved tid h
    have hc := claim_C2 penv fs0 saved tid h
    exact ⟨hc.1, hc.2.2.2⟩
  · intro penv fs0 saved tid h0 hI ht hact
    have hcc : cancelCheck penv.tripoActive (some tid) = true := by
      simp [cancelCheck, ht, hact]
    have hne : ¬ penv.gen.interruptAt = some 0 := by simp [hI]
    have hgen : generate_3d_from_images penv.gen penv.tripoActive saved ["glb", "usdz"]
        (some tid) = (Except.ok (cancelledResult "Task cancelled"), [Event.clientInit]) := by
      simp [generate_3d_from_images, hne, generateBody, hcc]
    have hb : processBody penv fs0 saved tid
        = (Except.ok { status := "cancelled", message := "Task cancelled",
                       gen := some (cancelledResult "Task cancelled") },
           removeSaved fs0 saved, [Event.clientInit]) := by
      simp [processBody, h0, hgen, cancelledResult]
    refine ⟨?_, ?_⟩
    · simp [process_3d_generation, hb]
    · intro f hf
      have : (process_3d_generation penv fs0 saved tid).fs = removeSaved fs0 saved := by
        simp [process_3d_generation, hb]
      rw [this]
      exact not_mem_removeSaved fs0 saved f hf
  · rfl
  · decide

/-- Scenario where the poller's own pre-submission checkpoint cancels: the
task id is registered in main.py's registry but absent from the poller's
(empty, never-populated) module dictionary. -/
def penvC7X : PEnv :=
  { gen := {}
    reg := fun _ => true
    uploadUrl := fun p => p }

theorem claim_C7_witness :
    (process_3d_generation penvC7X ["in.png"] ["in.png"] "t").result
      = Except.ok { status := "cancelled", message := "Task cancelled",
                    gen := some (cancelledResult "Task cancelled") } :=
  (claim_C7.2.1 penvC7X ["in.png"] ["in.png"] "t" rfl rfl (by decide) (by decide)).1

/-- C7 counterexample: at the before-upload checkpoint (task deregistered
after the poller succeeded, before uploads), the orchestrator returns a
cancelled result while the still-present input file "in.png" survives. -/
theorem claim_C7_counterexample :
    (process_3d_generation penvC7W ["in.png"] ["in.png"] "t").result
      = Except.ok { status := "cancelled", message := "Task was cancelled" }
    ∧ "in.png" ∈ (process_3d_generation penvC7W ["in.png"] ["in.png"] "t").fs := by
  exact ⟨rfl, by decide⟩

/-- Never-cancelled successful scenario for C9, parameterised over the
Artifact Publisher's url function. -/
def penvC9P (u : String → String) : PEnv :=
  { gen := genvSuccess
    tripoActive := ["t"]
    reg := fun _ => true
    regFinal := ["t"]
    uploadUrl := u }

/-- Filesystem at orchestration start for the C9 scenario: the input image
plus the files produced by the poller's downloads. -/
def fsC9 : List String := ["in.png", "./output/m.glb", "./output/u.usdz"]

/-- C9 (amended): after the orchestration finishes, the `finally` block has
deregistered the task, so `get_task_status` reports "not_found" (never
"completed") for every finished task; the success result — with a non-null
thumbnail URL whenever an input image was supplied and still present — is
delivered to the caller awaiting the task instead. -/
theorem claim_C9 :
    (∀ (penv : PEnv) (fs0 saved : List String) (tid : String)
        (done : String → Bool) (res : String → Except String ProcResult),
        penv.regFinal.Nodup →
        (get_task_status (process_3d_generation penv fs0 saved tid).registry
          done res tid).status = "not_found")
    ∧ (∀ u : String → String,
        (process_3d_generation (penvC9P u) fsC9 ["in.png"] "t").result
          = Except.ok { status := "success", message := "Models generated & uploaded",
                        file_urls := some { glb := [u "./output/glb/m.glb"],
                                            usdz := [u "./output/usdz/u.usdz"],
                                            thumbnail := some (u "in.png") } }) := by
  constructor
  · intro penv fs0 saved tid done res hnd
    have hreg : (process_3d_generation penv fs0 saved tid).registry
        = (finallyDereg penv.regFinal tid).1 := rfl
    have hnm : tid ∉ (process_3d_generation penv fs0 saved tid).registry := by
      rw [hreg]
      exact finallyDereg_not_mem _ _ hnd
    simp [get_task_status, hnm]
  · intro u
    rfl

theorem claim_C9_witness :
    (get_task_status (process_3d_generation (penvC9P (fun p => p)) fsC9 ["in.png"] "t").registry
        (fun _ => true) (fun _ => Except.error "unused") "t").status = "not_found"
    ∧ (process_3d_generation (penvC9P (fun p => p)) fsC9 ["in.png"] "t").result
        = Except.ok { status := "success", message := "Models generated & uploaded",
                      file_urls := some { glb := ["./output/glb/m.glb"],
                                          usdz := ["./output/usdz/u.usdz"],
                                          thumbnail := some "in.png" } } :=
  ⟨claim_C9.1 (penvC9P (fun p => p)) fsC9 ["in.png"] "t" (fun _ => true)
      (fun _ => Except.error "unused") (by decide),
   claim_C9.2 (fun p => p)⟩

/-- C9 counterexample: a task that is never cancelled and whose external job
succeeds ends with a success result, yet `get_task_status` queried after the
orchestration finishes returns "not_found", not "completed", because the
`finally` block already deregistered the task. -/
theorem claim_C9_counterexample :
    genStatus (generate_3d_from_images genvSuccess ["t"] ["in.png"] ["glb", "usdz"]
        (some "t")) = some "success"
    ∧ (process_3d_generation (penvC9P (fun p => "url:" ++ p)) fsC9 ["in.png"] "t").registry = []
    ∧ (get_task_status
        (process_3d_generation (penvC9P (fun p => "url:" ++ p)) fsC9 ["in.png"] "t").registry
        (fun _ => true)
        (fun _ => Except.ok { status := "success" }) "t").status = "not_found"
    ∧ "not_found" ≠ "completed" := by
  refine ⟨?_, ?_, ?_, ?_⟩
  · decide
  · decide
  · decide
  · decide

lemma isSubmit_clientInit : isSubmit Event.clientInit = false := rfl

lemma isSubmit_submitEvent (ps : List String) : isSubmit (submitEvent ps) = true := by
  unfold submitEvent
  by_cases h : ps.length = 1
  · rw [if_pos h]
    rfl
  · rw [if_neg h]
    rfl

lemma pollPure_nonterminal (env : TripoEnv) :
    ∀ fuel n, (∀ m, m < fuel →
        env.status (n + m) = TaskStatus.queued ∨ env.status (n + m) = TaskStatus.running) →
      pollPure env n fuel = PollRes.timeout := by
  intro fuel
  induction fuel with
  | zero => intro n _; rfl
  | succ fuel ih =>
    intro n h
    have h0 : env.status n = TaskStatus.queued ∨ env.status n = TaskStatus.running := by
      simpa using h 0 (Nat.succ_pos fuel)
    have hrest : ∀ m, m < fuel →
        env.status (n + 1 + m) = TaskStatus.queued ∨ env.status (n + 1 + m) = TaskStatus.running := by
      intro m hm
      have hx := h (m + 1) (Nat.succ_lt_succ hm)
      have harith : n + (m + 1) = n + 1 + m := by omega
      rw [harith] at hx
      exact hx
    rcases h0 with h0 | h0
    · simp only [pollPure, h0]
      exact ih (n + 1) hrest
    · simp only [pollPure, h0]
      exact ih (n + 1) hrest

/-- C3 (amended): when the remote job never reaches a terminal state within
the 100 polls of the 300-second budget, `generate_3d_from_images` returns a
result with `status = "error"` and `message = "Task timeout"` (the spec's
`timed_out` outcome, surfaced error-shaped) — a status distinct from the
`"failed"` one of a remote failure — and performs exactly one submission
call, i.e. the job is never retried. -/
theorem claim_C3 (env : TripoEnv) (ps fmts : List String)
    (hI : env.interruptAt = none)
    (hq : ∀ n, n < 100 →
      env.status n = TaskStatus.queued ∨ env.status n = TaskStatus.running) :
    ∃ t, generate_3d_from_images env [] ps fmts none
        = (Except.ok { status := "error", message := "Task timeout" },
           Event.clientInit :: submitEvent ps :: t)
      ∧ submitCount (generate_3d_from_images env [] ps fmts none) = 1
      ∧ genStatus (generate_3d_from_images env [] ps fmts none) ≠ some "failed" := by
  obtain ⟨t, ht, hc⟩ := generate_none_eq env [] ps fmts hI
  have hp : pollPure env 0 100 = PollRes.timeout := by
    apply pollPure_nonterminal
    intro m hm
    simpa using hq m hm
  have hg : genPure env ps fmts = { status := "error", message := "Task timeout" } := by
    simp [genPure, hp]
  rw [hg] at ht
  refine ⟨t, ht, ?_, ?_⟩
  · simp [submitCount, ht, List.countP_cons, isSubmit_clientInit, isSubmit_submitEvent, hc]
  · simp [genStatus, ht]

/-- Environment where the remote job reports `running` forever. -/
def envAllRunning : TripoEnv := { status := fun _ => .running }

theorem claim_C3_witness :
    ∃ t, generate_3d_from_images envAllRunning [] ["a.png"] [] none
        = (Except.ok { status := "error", message := "Task timeout" },
           Event.clientInit :: submitEvent ["a.png"] :: t)
      ∧ submitCount (generate_3d_from_images envAllRunning [] ["a.png"] [] none) = 1
      ∧ genStatus (generate_3d_from_images envAllRunning [] ["a.png"] [] none)
          ≠ some "failed" :=
  claim_C3 envAllRunning ["a.png"] [] rfl (fun _ _ => Or.inr rfl)

/-- C3 counterexample: in the run where the budget is exhausted, the returned
status field is the string "error" (with message "Task timeout"), not a
distinct "timed_out" status value. -/
theorem claim_C3_counterexample :
    genStatus (generate_3d_from_images envAllRunning [] ["a.png"] [] none) = some "error"
    ∧ genStatus (generate_3d_from_images envAllRunning [] ["a.png"] [] none)
        ≠ some "timed_out" := by
  have h : genStatus (generate_3d_from_images envAllRunning [] ["a.png"] [] none)
      = some "error" := rfl
  refine ⟨h, ?_⟩
  rw [h]
  simp

/-- C8: if the base generation succeeds but the conversion of one requested
(non-glb) format fails remotely or times out, the overall result still has
status "success"; the failed format is absent from the files mapping, every
other non-glb format is mapped exactly to its conversion outcome (its
downloaded paths when it succeeded), and a requested "glb" is mapped to the
downloaded PBR model when present. -/
theorem claim_C8 (env : TripoEnv) (ps fmts : List String) (f : String)
    (hI : env.interruptAt = none) (hs : env.status 0 = TaskStatus.success)
    (hnd : fmts.Nodup) (_hfmem : f ∈ fmts) (hfglb : f ≠ "glb")
    (hbad : convPollPure env f 0 40 = none) :
    ∃ r, (generate_3d_from_images env [] ps fmts none).1 = Except.ok r
      ∧ r.status = "success"
      ∧ r.files.lookup f = none
      ∧ (∀ g, g ∈ fmts → g ≠ "glb" → r.files.lookup g = convPollPure env g 0 40)
      ∧ ("glb" ∈ fmts → r.files.lookup "glb"
           = glbExpected (env.downloadMap.lookup "pbr_model")) := by
  obtain ⟨t, ht, hc⟩ := generate_none_eq env [] ps fmts hI
  have hp : pollPure env 0 100 = PollRes.succeeded := by
    have hu : pollPure env 0 100
        = match env.status 0 with
          | .success => PollRes.succeeded
          | .failed => PollRes.failedRemote
          | .cancelled => PollRes.cancelledServer
          | _ => pollPure env 1 99 := rfl
    rw [hu, hs]
  have hstatus : (genPure env ps fmts).status = "success" := by
    simp [genPure, hp]
  have hfiles : (genPure env ps fmts).files
      = fmts.foldl (convStep env (env.downloadMap.lookup "pbr_model")) [] := by
    simp [genPure, hp]
  refine ⟨genPure env ps fmts, ?_, hstatus, ?_, ?_, ?_⟩
  · rw [ht]
  · rw [hfiles, convFold_lookup_bad env _ f hfglb hbad fmts []]
    rfl
  · intro g hg hgglb
    rw [hfiles]
    cases hcp : convPollPure env g 0 40 with
    | some psg =>
      exact convFold_lookup_found env _ g psg hgglb hcp fmts [] hg hnd
    | none =>
      rw [convFold_lookup_bad env _ g hgglb hcp fmts []]
      rfl
  · intro hglbmem
    rw [hfiles]
    exact convFold_lookup_glb env _ fmts hglbmem hnd

/-- Environment for the C8 scenario of the spec: base succeeds, usdz
conversion fails remotely, every other conversion succeeds. -/
def envC8W : TripoEnv :=
  { status := fun _ => .success
    downloadMap := [("pbr_model", "./output/m.glb")]
    convStatus := fun fm _ => if fm = "usdz" then .failed else .success
    convDownload := fun fm => ["./output/" ++ fm ++ "/x." ++ fm] }

theorem claim_C8_witness :
    ∃ r, (generate_3d_from_images envC8W [] ["a.png"] ["glb", "usdz", "obj"] none).1
        = Except.ok r
      ∧ r.status = "success"
      ∧ r.files.lookup "usdz" = none
      ∧ (∀ g, g ∈ ["glb", "usdz", "obj"] → g ≠ "glb" →
          r.files.lookup g = convPollPure envC8W g 0 40)
      ∧ ("glb" ∈ ["glb", "usdz", "obj"] → r.files.lookup "glb"
           = glbExpected (envC8W.downloadMap.lookup "pbr_model")) :=
  claim_C8 envC8W ["a.png"] ["glb", "usdz", "obj"] "usdz" rfl rfl (by decide) (by decide)
    (by decide) (by decide)

/-- C10: with no cancellation applying, the Job Poller submits exactly once,
via the single-view call when exactly one image is supplied and via the
multi-view call when more than one is supplied. -/
theorem claim_C10 (env : TripoEnv) (active ps fmts : List String)
    (hI : env.interruptAt = none) :
    (∀ p, ps = [p] →
        (generate_3d_from_images env active ps fmts none).2.take 2
          = [Event.clientInit, Event.submitSingle p])
    ∧ (2 ≤ ps.length →
        (generate_3d_from_images env active ps fmts none).2.take 2
          = [Event.clientInit, Event.submitMulti ps])
    ∧ submitCount (generate_3d_from_images env active ps fmts none) = 1 := by
  obtain ⟨t, ht, hc⟩ := generate_none_eq env active ps fmts hI
  have hevs : (generate_3d_from_images env active ps fmts none).2
      = Event.clientInit :: submitEvent ps :: t := by rw [ht]
  refine ⟨?_, ?_, ?_⟩
  · intro p hps
    rw [hevs]
    subst hps
    simp [submitEvent]
  · intro hlen
    rw [hevs]
    have hne1 : ps.length ≠ 1 := by omega
    simp [submitEvent, hne1]
  · simp [submitCount, hevs, List.countP_cons, isSubmit_clientInit, isSubmit_submitEvent, hc]

theorem claim_C10_witness :
    (generate_3d_from_images {} [] ["a.png"] [] none).2.take 2
      = [Event.clientInit, Event.submitSingle "a.png"]
    ∧ (generate_3d_from_images {} [] ["a.png", "b.png"] [] none).2.take 2
      = [Event.clientInit, Event.submitMulti ["a.png", "b.png"]] :=
  ⟨(claim_C10 {} [] ["a.png"] [] rfl).1 "a.png" rfl,
   (claim_C10 {} [] ["a.png", "b.png"] [] rfl).2.1 (by decide)⟩

end ARBackend

